import Mathlib

/-! # Detection controller of `main/main_functions.cc`

A shallow embedding of the firmware's control code: the ESP-NOW wrappers
(`init_wifi`, `init_esp_now`, `register_peer`, `esp_now_send_data`), the two
radio callbacks (`recv_cb`, `send_cb`), the start-up sequencer `setup`, the
poll tick `loop` and the single-shot path `run_inference`.

* Globals of the translation unit are the fields of `State`.
* Vendor subsystems (radio, heap, TensorFlow Lite Micro interpreter, camera,
  detection responder) are collaborators: their answers come from an `Env`,
  the n-th call of a repeated collaborator getting the n-th answer.
* Every collaborator call is appended to `State.trace` together with the value
  the trigger flag `ghost_busters` has at the time of the call.  The store
  `buffer[gesture_count] = ...` into the local run buffer is recorded too.
* Scores are IEEE floats in the source; they are only copied, never computed
  with, so they are values of an arbitrary type `Score`.
* `MicroPrintf`/`ESP_LOGx`/`printf` only write to the log sink and are left out.
* The globals `interpreter` and `input` are null until `setup` binds them;
  `State.interpreter` and `State.input` say whether they are bound, and a use
  of a null one is `Fault.null_dereference`.
* `esp_now_send` reads `len` bytes from the address it is given.  The bytes
  past the end of the array `tmp` of `loop` are whatever the build has placed
  after it on the stack; `Env.stack_beyond_tmp` supplies them.
* The `while` of `loop` has no bound in the source; the embedding runs it with
  fuel and reports `Fault.out_of_fuel` when the fuel does not suffice.
* The build modelled is the one without `CLI_ONLY_INFERENCE` and without
  `COLLECT_CPU_STATS`.
-/

namespace HandGesture

/-- Status code of the TensorFlow Lite Micro C API. -/
inductive TfLiteStatus
  | kTfLiteOk
  | kTfLiteError
  deriving DecidableEq

/-- Send status reported to the send-completion callback. -/
inductive esp_now_send_status_t
  | ESP_NOW_SEND_SUCCESS
  | ESP_NOW_SEND_FAIL
  deriving DecidableEq

/-- ESP-IDF error code (`esp_err_t` is a C `int`). -/
abbrev esp_err_t := Int

def ESP_OK : esp_err_t := 0

def ESP_FAIL : esp_err_t := -1

/-- Channel constant: `#define ESP_CHANNEL 0`. -/
def ESP_CHANNEL : Nat := 0

/-- Address of the registered peer: `static uint8_t peer_mac[ESP_NOW_ETH_ALEN]`. -/
def peer_mac : List Nat := [0x30, 0xAE, 0xA4, 0x1B, 0x93, 0xF4]

/-- Contents of a tensor data area (a C union of typed views). -/
inductive TensorData (Score : Type)
  | unset
  | int8 (bytes : List Int)
  | f (vals : List Score)

/-- Collaborator calls (and run-buffer stores) observable in a run. -/
inductive Event (Score : Type)
  | esp_psram_get_size (ret : Nat)
  | esp_netif_init
  | esp_event_loop_create_default
  | nvs_flash_init
  | esp_wifi_init
  | esp_wifi_set_mode
  | esp_wifi_set_storage
  | esp_wifi_start
  | esp_now_init
  | esp_now_register_recv_cb
  | esp_now_register_send_cb
  | esp_now_add_peer (peer_addr : List Nat) (channel : Nat) (ret : esp_err_t)
  /-- The call `esp_now_send(peer_addr, data, len)`; `data` lists the `len` bytes
  found at the address handed over, which are the bytes the radio layer reads. -/
  | esp_now_send (peer_addr : List Nat) (data : List Nat) (len : Nat)
  | GetModel (version : Nat)
  | heap_caps_malloc (size : Nat) (ret : Option Nat)
  | micro_op_resolver (ops : List String)
  | MicroInterpreter (arena : Option Nat) (arena_size : Nat)
  | AllocateTensors (ret : TfLiteStatus)
  | interpreter_input (index : Nat)
  | InitCamera (ret : TfLiteStatus)
  | vTaskDelay (ticks : Nat)
  | GetImage (cols rows channels : Nat) (ret : TfLiteStatus)
  | Invoke (ret : TfLiteStatus)
  | RespondToDetection (scores : List Score) (ret : Nat)
  | buffer_store (index : Nat) (value : Nat)

/-- One trace entry: the event and the trigger flag at the time it happens. -/
structure Obs (Score : Type) where
  ev : Event Score
  flag : Bool

/-- Ways the embedding of `loop` and `run_inference` can fail to produce a state. -/
inductive Fault
  | out_of_fuel
  | out_of_bounds
  | null_dereference
  deriving DecidableEq

/-- Globals of `main_functions.cc`, collaborator call counters and the trace. -/
structure State (Score : Type) where
  ghost_busters : Bool
  model : Option Nat
  tensor_arena : Option Nat
  static_interpreter : Bool
  interpreter : Bool
  input : Bool
  input_data : TensorData Score
  output_data : Nat → Score
  aborted : Bool
  calls_GetImage : Nat
  calls_Invoke : Nat
  calls_RespondToDetection : Nat
  trace : List (Obs Score)

/-- The local `uint8_t buffer[5]`: five cells, indeterminate until stored. -/
abbrev Buffer := List (Option Nat)

/-- Build constants declared in headers outside `main_functions.cc`, and the
answers of the collaborators. -/
structure Env (Score : Type) where
  kNumCols : Nat
  kNumRows : Nat
  kNumChannels : Nat
  kCategoryCount : Nat
  TFLITE_SCHEMA_VERSION : Nat
  portTICK_PERIOD_MS : Nat
  CONFIG_IDF_TARGET_ESP32S3 : Bool
  esp_psram_get_size : Nat
  esp_now_add_peer : esp_err_t
  model_version : Nat
  heap_caps_malloc : Option Nat
  AllocateTensors : TfLiteStatus
  InitCamera : TfLiteStatus
  /-- Answer of the n-th `GetImage` call: status and the bytes left in the input tensor. -/
  GetImage : Nat → TfLiteStatus × List Int
  /-- Answer of the n-th `Invoke` call on the given input: status and output tensor. -/
  Invoke : Nat → TensorData Score → TfLiteStatus × (Nat → Score)
  /-- Modelled from the spec: the detection-response collaborator
  `RespondToDetection` (declared in `detection_responder.h`, not in this file);
  the spec gives `respond(scores, labels) -> outcome_code: u8`, a single byte. -/
  RespondToDetection : Nat → List Score → Fin 256
  /-- The float expression `(float(x) / 127.5) - 1` of `run_inference`. -/
  normalize : Nat → Score
  /-- Stack layout of the build: the byte found `i` bytes past the end of `tmp`
  when `loop` issues the send, given the globals and the run buffer at that time. -/
  stack_beyond_tmp : State Score → Buffer → Nat → Nat

variable {Score : Type}

/-- State at boot: `ghost_busters = false`, every pointer null. -/
def init (out : Nat → Score) : State Score :=
  { ghost_busters := false, model := none, tensor_arena := none,
    static_interpreter := false, interpreter := false, input := false,
    input_data := TensorData.unset, output_data := out, aborted := false,
    calls_GetImage := 0, calls_Invoke := 0, calls_RespondToDetection := 0,
    trace := [] }

/-- Append a collaborator call to the trace. -/
def emit (e : Event Score) (s : State Score) : State Score :=
  { s with trace := s.trace ++ [⟨e, s.ghost_busters⟩] }

/-- Arena size: `kTensorArenaSize = 560 * 1024 + scratchBufSize`. -/
def kTensorArenaSize (env : Env Score) : Nat :=
  560 * 1024 + (if env.CONFIG_IDF_TARGET_ESP32S3 then 40 * 1024 else 0)

def init_wifi (s : State Score) : esp_err_t × State Score :=
  let s := emit Event.esp_netif_init s
  let s := emit Event.esp_event_loop_create_default s
  let s := emit Event.nvs_flash_init s
  let s := emit Event.esp_wifi_init s
  let s := emit Event.esp_wifi_set_mode s
  let s := emit Event.esp_wifi_set_storage s
  let s := emit Event.esp_wifi_start s
  (ESP_OK, s)

/-- Receive callback.  Its body is one log line; the assignment
`ghost_busters = true` is commented out in the source. -/
def recv_cb (_src_addr : List Nat) (_data : List Nat) (_data_len : Int)
    (s : State Score) : State Score :=
  s

/-- Send-completion callback: logs success or failure. -/
def send_cb (_mac_addr : List Nat) (status : esp_now_send_status_t)
    (s : State Score) : State Score :=
  if status = esp_now_send_status_t.ESP_NOW_SEND_SUCCESS then s else s

def init_esp_now (s : State Score) : esp_err_t × State Score :=
  let s := emit Event.esp_now_init s
  let s := emit Event.esp_now_register_recv_cb s
  let s := emit Event.esp_now_register_send_cb s
  (ESP_OK, s)

/-- Peer registration: the entry is filled from the global `peer_mac` (the
parameter is not read), handed to `esp_now_add_peer`, whose result is dropped. -/
def register_peer (env : Env Score) (_peer_addr : List Nat)
    (s : State Score) : esp_err_t × State Score :=
  let s := emit (Event.esp_now_add_peer peer_mac ESP_CHANNEL env.esp_now_add_peer) s
  (ESP_OK, s)

/-- Memory seen from the start of an array: its cells, then what lies beyond. -/
def bytes_from (array : List Nat) (beyond : Nat → Nat) (i : Nat) : Nat :=
  if i < array.length then array.getD i 0 else beyond (i - array.length)

/-- The wrapper `esp_now_send_data(peer_addr, data, len)`; `data i` is the
byte `data[i]`, and `esp_now_send` reads the bytes `data[0]` to `data[len - 1]`. -/
def esp_now_send_data (peer_addr : List Nat) (data : Nat → Nat) (len : Nat)
    (s : State Score) : esp_err_t × State Score :=
  let s := emit (Event.esp_now_send peer_addr ((List.range len).map data) len) s
  (ESP_OK, s)

/-- The macro `ESP_ERROR_CHECK(x)`: abort unless `x` is `ESP_OK`. -/
def ESP_ERROR_CHECK (r : esp_err_t × State Score)
    (k : State Score → State Score) : State Score :=
  if r.1 = ESP_OK then k r.2 else { r.2 with aborted := true }

/-- Operators registered with the resolver, in source order. -/
def resolver_ops : List String :=
  ["Quantize", "Reshape", "FullyConnected", "Softmax", "Dequantize", "Mean",
   "Conv2D", "DepthwiseConv2D", "MaxPool2D", "Mul", "Add"]

/-- The assignment `model = ...`. -/
def set_model (v : Option Nat) (s : State Score) : State Score :=
  { s with model := v }

/-- The assignment `tensor_arena = ...`. -/
def set_tensor_arena (v : Option Nat) (s : State Score) : State Score :=
  { s with tensor_arena := v }

/-- The one-time construction of the function-local `static_interpreter`. -/
def set_static_interpreter (v : Bool) (s : State Score) : State Score :=
  { s with static_interpreter := v }

/-- The assignment `interpreter = ...` (`true`: not null). -/
def set_interpreter (v : Bool) (s : State Score) : State Score :=
  { s with interpreter := v }

/-- The assignment `input = ...` (`true`: not null). -/
def set_input (v : Bool) (s : State Score) : State Score :=
  { s with input := v }

def setup (env : Env Score) (s : State Score) : State Score :=
  let s := emit (Event.esp_psram_get_size env.esp_psram_get_size) s
  if env.esp_psram_get_size = 0 then s
  else
    ESP_ERROR_CHECK (init_wifi s) fun s =>
    ESP_ERROR_CHECK (init_esp_now s) fun s =>
    ESP_ERROR_CHECK (register_peer env peer_mac s) fun s =>
    let s := set_model (some env.model_version) (emit (Event.GetModel env.model_version) s)
    if env.model_version ≠ env.TFLITE_SCHEMA_VERSION then s
    else
      let s := if s.tensor_arena = none then
          set_tensor_arena env.heap_caps_malloc
            (emit (Event.heap_caps_malloc (kTensorArenaSize env) env.heap_caps_malloc) s)
        else s
      if s.tensor_arena = none then s
      else
        let s := emit (Event.micro_op_resolver resolver_ops) s
        let s := if s.static_interpreter then s else
          set_static_interpreter true
            (emit (Event.MicroInterpreter s.tensor_arena (kTensorArenaSize env)) s)
        let s := set_interpreter true s
        let s := emit (Event.AllocateTensors env.AllocateTensors) s
        if env.AllocateTensors ≠ TfLiteStatus.kTfLiteOk then s
        else
          let s := set_input true (emit (Event.interpreter_input 0) s)
          let s := emit (Event.InitCamera env.InitCamera) s
          if env.InitCamera ≠ TfLiteStatus.kTfLiteOk then s else s

def vTaskDelay (ticks : Nat) (s : State Score) : State Score :=
  emit (Event.vTaskDelay ticks) s

/-- The call `GetImage(kNumCols, kNumRows, kNumChannels, input->data.int8)`. -/
def GetImage (env : Env Score) (s : State Score) : TfLiteStatus × State Score :=
  let r := env.GetImage s.calls_GetImage
  (r.1, emit (Event.GetImage env.kNumCols env.kNumRows env.kNumChannels r.1)
    { s with calls_GetImage := s.calls_GetImage + 1, input_data := TensorData.int8 r.2 })

/-- The call `interpreter->Invoke()`. -/
def Invoke (env : Env Score) (s : State Score) : TfLiteStatus × State Score :=
  let r := env.Invoke s.calls_Invoke s.input_data
  (r.1, emit (Event.Invoke r.1)
    { s with calls_Invoke := s.calls_Invoke + 1, output_data := r.2 })

/-- The call `RespondToDetection(digit_scores, kCategoryLabels)`. -/
def RespondToDetection (env : Env Score) (digit_scores : List Score)
    (s : State Score) : Nat × State Score :=
  let r := (env.RespondToDetection s.calls_RespondToDetection digit_scores).val
  (r, emit (Event.RespondToDetection digit_scores r)
    { s with calls_RespondToDetection := s.calls_RespondToDetection + 1 })

/-- The copy loop `digit_scores[i] = output->data.f[i]`, `i < kCategoryCount`. -/
def digit_scores (env : Env Score) (s : State Score) : List Score :=
  (List.range env.kCategoryCount).map s.output_data

/-- The store `buffer[i] = v`; a store outside the array is a fault. -/
def buffer_store (buffer : Buffer) (i : Nat) (v : Nat) : Except Fault Buffer :=
  if i < buffer.length then Except.ok (buffer.set i (some v))
  else Except.error Fault.out_of_bounds

/-- The loop `while (gesture_count < 5) { ... }` of `loop`, lines 229 to 257.
The argument `input->data.int8` of `GetImage` reads through `input`, and
`interpreter->Invoke()` and `interpreter->output(0)` through `interpreter`. -/
def loop_while (env : Env Score) :
    Nat → State Score → Nat → Buffer → Except Fault (State Score × Nat × Buffer)
  | 0, _, _, _ => Except.error Fault.out_of_fuel
  | fuel + 1, s, gesture_count, buffer =>
    if gesture_count < 5 then
      if s.input = false then Except.error Fault.null_dereference
      else
      let r := GetImage env s
      if r.1 ≠ TfLiteStatus.kTfLiteOk then
        loop_while env fuel r.2 gesture_count buffer
      else
        if r.2.interpreter = false then Except.error Fault.null_dereference
        else
        let r := Invoke env r.2
        if r.1 ≠ TfLiteStatus.kTfLiteOk then
          loop_while env fuel r.2 gesture_count buffer
        else
          let r := RespondToDetection env (digit_scores env r.2) r.2
          match buffer_store buffer gesture_count r.1 with
          | Except.error e => Except.error e
          | Except.ok buffer =>
            let s := emit (Event.buffer_store gesture_count r.1) r.2
            let gesture_count := gesture_count + 1
            let s := vTaskDelay 1 s
            loop_while env fuel s gesture_count buffer
    else Except.ok (s, gesture_count, buffer)

/-- Lines 224 to 257 of `loop`: settle delay, declaration of the run buffer and
the detection loop.  The result is the state, the count and the run buffer at
the moment the send is issued. -/
def loop_run (env : Env Score) (fuel : Nat) (s : State Score) :
    Except Fault (State Score × Nat × Buffer) :=
  let s := vTaskDelay (7000 / env.portTICK_PERIOD_MS) s
  let buffer : Buffer := List.replicate 5 none
  let gesture_count := 0
  loop_while env fuel s gesture_count buffer

/-- One poll tick: the function `loop`. -/
def loop (env : Env Score) (fuel : Nat) (s : State Score) : Except Fault (State Score) :=
  if s.ghost_busters then
    match loop_run env fuel s with
    | Except.error e => Except.error e
    | Except.ok r =>
      let tmp : List Nat := [1, 1, 1, 1, 1]
      let r := esp_now_send_data peer_mac
        (bytes_from tmp (env.stack_beyond_tmp r.1 r.2.2)) 32 r.1
      Except.ok { r.2 with ghost_busters := false }
  else Except.ok s

/-- The conversion loop of `run_inference`:
`input->data.f[i] = (float(uint8_ptr[i]) / 127.5) - 1`, `i < kNumCols * kNumRows`. -/
def input_floats (env : Env Score) (ptr : Nat → Nat) : List Score :=
  (List.range (env.kNumCols * env.kNumRows)).map fun i => env.normalize (ptr i)

/-- The single-shot path `run_inference(ptr)`; `ptr i` is the byte `uint8_ptr[i]`.
The conversion loop writes through `input` (when it has an iteration at all),
`Invoke` and `output(0)` are called through `interpreter`. -/
def run_inference (env : Env Score) (ptr : Nat → Nat) (s : State Score) :
    Except Fault (State Score) :=
  if 0 < env.kNumCols * env.kNumRows ∧ s.input = false then
    Except.error Fault.null_dereference
  else
    let s := { s with input_data := TensorData.f (input_floats env ptr) }
    if s.interpreter = false then Except.error Fault.null_dereference
    else
      let r := Invoke env s
      let s := if r.1 ≠ TfLiteStatus.kTfLiteOk then r.2 else r.2
      let r := RespondToDetection env (digit_scores env s) s
      Except.ok r.2

/-! ## Reading a trace -/

/-- Arguments `(peer_addr, data, len)` of an `esp_now_send` call. -/
def Event.send_args : Event Score → Option (List Nat × List Nat × Nat)
  | Event.esp_now_send a d n => some (a, d, n)
  | _ => none

/-- Index and value of a run-buffer store. -/
def Event.store_args : Event Score → Option (Nat × Nat)
  | Event.buffer_store i v => some (i, v)
  | _ => none

/-- Code returned by a `RespondToDetection` call. -/
def Event.response : Event Score → Option Nat
  | Event.RespondToDetection _ c => some c
  | _ => none

/-- Scores handed to a `RespondToDetection` call. -/
def Event.response_scores : Event Score → Option (List Score)
  | Event.RespondToDetection sc _ => some sc
  | _ => none

/-- Frame acquisitions: one per execution of the loop body. -/
def Event.is_GetImage : Event Score → Bool
  | Event.GetImage _ _ _ _ => true
  | _ => false

/-- Calls of the classifier. -/
def Event.is_Invoke : Event Score → Bool
  | Event.Invoke _ => true
  | _ => false

/-- Failed acquisition or failed classification. -/
def Event.is_failure : Event Score → Bool
  | Event.GetImage _ _ _ TfLiteStatus.kTfLiteError => true
  | Event.Invoke TfLiteStatus.kTfLiteError => true
  | _ => false

/-- Result of an `esp_now_add_peer` call. -/
def Event.add_peer_ret : Event Score → Option esp_err_t
  | Event.esp_now_add_peer _ _ r => some r
  | _ => none

/-- The sends of a trace, in order. -/
def sends (tr : List (Obs Score)) : List (List Nat × List Nat × Nat) :=
  tr.filterMap fun o => o.ev.send_args

/-- The run-buffer stores of a trace, in order. -/
def stores (tr : List (Obs Score)) : List (Nat × Nat) :=
  tr.filterMap fun o => o.ev.store_args

/-- The codes returned by `RespondToDetection` in a trace, in order. -/
def responses (tr : List (Obs Score)) : List Nat :=
  tr.filterMap fun o => o.ev.response

/-- Number of executions of the loop body in a trace. -/
def attempts (tr : List (Obs Score)) : Nat :=
  tr.countP fun o => o.ev.is_GetImage

/-- Number of failed attempts in a trace. -/
def failures (tr : List (Obs Score)) : Nat :=
  tr.countP fun o => o.ev.is_failure

/-- The part of the trace of `s'` that was appended after `s`. -/
def new_events (s s' : State Score) : List (Obs Score) :=
  s'.trace.drop s.trace.length

/-- Start-up phase of a collaborator call: 0 memory precondition, 1 radio
bring-up, 2 peer registration, 3 model schema version, 4 arena allocation,
5 interpreter construction, 6 tensor allocation, 7 input binding,
8 frame-source init; 9 for calls that are not part of start-up. -/
def Event.phase : Event Score → Nat
  | Event.esp_psram_get_size _ => 0
  | Event.esp_netif_init => 1
  | Event.esp_event_loop_create_default => 1
  | Event.nvs_flash_init => 1
  | Event.esp_wifi_init => 1
  | Event.esp_wifi_set_mode => 1
  | Event.esp_wifi_set_storage => 1
  | Event.esp_wifi_start => 1
  | Event.esp_now_init => 1
  | Event.esp_now_register_recv_cb => 1
  | Event.esp_now_register_send_cb => 1
  | Event.esp_now_add_peer _ _ _ => 2
  | Event.GetModel _ => 3
  | Event.heap_caps_malloc _ _ => 4
  | Event.micro_op_resolver _ => 5
  | Event.MicroInterpreter _ _ => 5
  | Event.AllocateTensors _ => 6
  | Event.interpreter_input _ => 7
  | Event.InitCamera _ => 8
  | Event.esp_now_send _ _ _ => 9
  | Event.vTaskDelay _ => 9
  | Event.GetImage _ _ _ _ => 9
  | Event.Invoke _ => 9
  | Event.RespondToDetection _ _ => 9
  | Event.buffer_store _ _ => 9

/-- States the firmware can be in: from boot, any interleaving of `setup`,
terminating poll ticks, radio callbacks and returning single-shot inferences. -/
inductive Reachable (env : Env Score) (out : Nat → Score) : State Score → Prop
  | boot : Reachable env out (init out)
  | setup (s : State Score) : Reachable env out s → Reachable env out (setup env s)
  | loop (s s' : State Score) (fuel : Nat) :
      Reachable env out s → loop env fuel s = Except.ok s' → Reachable env out s'
  | recv_cb (s : State Score) (src_addr data : List Nat) (data_len : Int) :
      Reachable env out s → Reachable env out (recv_cb src_addr data data_len s)
  | send_cb (s : State Score) (mac_addr : List Nat) (status : esp_now_send_status_t) :
      Reachable env out s → Reachable env out (send_cb mac_addr status s)
  | run_inference (s s' : State Score) (ptr : Nat → Nat) :
      Reachable env out s → run_inference env ptr s = Except.ok s' → Reachable env out s'

/-! ## Concrete collaborators used to exercise the definitions -/

/-- Collaborators that always succeed; every classification favours category 2
and the responder answers with the index of the largest score.  In this build
the run buffer lies right after `tmp` on the stack, followed by zero bytes. -/
def demo_env : Env Nat :=
  { kNumCols := 2, kNumRows := 2, kNumChannels := 1, kCategoryCount := 3,
    TFLITE_SCHEMA_VERSION := 3, portTICK_PERIOD_MS := 10,
    CONFIG_IDF_TARGET_ESP32S3 := false,
    esp_psram_get_size := 4194304, esp_now_add_peer := ESP_OK,
    model_version := 3, heap_caps_malloc := some 1024,
    AllocateTensors := TfLiteStatus.kTfLiteOk, InitCamera := TfLiteStatus.kTfLiteOk,
    GetImage := fun _ => (TfLiteStatus.kTfLiteOk, [0, 0, 0, 0]),
    Invoke := fun _ _ => (TfLiteStatus.kTfLiteOk, fun i => if i = 2 then 90 else 5),
    RespondToDetection := fun _ sc => if sc = [5, 5, 90] then 2 else 0,
    normalize := fun x => x,
    stack_beyond_tmp := fun _ buffer i => (buffer.getD i none).getD 0 }

/-- As `demo_env`, but the first acquisition and the second classification fail
and the responder answers with the call number. -/
def flaky_env : Env Nat :=
  { demo_env with
    GetImage := fun n => (if n = 0 then TfLiteStatus.kTfLiteError else TfLiteStatus.kTfLiteOk, [1, 2, 3, 4]),
    Invoke := fun n _ => (if n = 1 then TfLiteStatus.kTfLiteError else TfLiteStatus.kTfLiteOk, fun i => i + n),
    RespondToDetection := fun n _ => Fin.ofNat n }

/-- As `demo_env`, but the radio layer rejects the peer table entry. -/
def reject_env : Env Nat :=
  { demo_env with esp_now_add_peer := ESP_FAIL }

/-- Boot state of the demo. -/
def demo_boot : State Nat := init fun _ => 0

/-- The device after a start-up in which every check passed: `interpreter` and
`input` are bound. -/
def demo_ready : State Nat := setup demo_env demo_boot

/-- The set-up device with the trigger flag set. -/
def demo_armed : State Nat := { demo_ready with ghost_busters := true }

/-- The result of a poll tick, or the state itself when the tick faults. -/
def tick (env : Env Score) (fuel : Nat) (s : State Score) : State Score :=
  match loop env fuel s with
  | Except.ok s' => s'
  | Except.error _ => s

/-- The result of a single-shot inference, or the state itself when it faults. -/
def single_shot (env : Env Score) (ptr : Nat → Nat) (s : State Score) : State Score :=
  match run_inference env ptr s with
  | Except.ok s' => s'
  | Except.error _ => s

/-- The traces the detection loop can leave, for a loop entered with the trigger
flag `flag`, with `g`, `v` and `r` earlier calls of `GetImage`, `Invoke` and
`RespondToDetection`, and with `gc` codes stored.  Each execution of the body is
a failed acquisition, or an acquisition and a failed classification of the
acquired frame, or an acquisition, a successful classification of the acquired
frame, the responder call on the `kCategoryCount` scores of that classification,
the store of the code it returned into cell `gc`, and the yield. -/
inductive RunTrace (env : Env Score) (flag : Bool) :
    Nat → Nat → Nat → Nat → List (Obs Score) → Prop
  | finished (g v r : Nat) : RunTrace env flag g v r 5 []
  | acquisition_failed (g v r gc : Nat) (rest : List (Obs Score)) :
      gc < 5 → (env.GetImage g).1 ≠ TfLiteStatus.kTfLiteOk →
      RunTrace env flag (g + 1) v r gc rest →
      RunTrace env flag g v r gc
        (⟨Event.GetImage env.kNumCols env.kNumRows env.kNumChannels (env.GetImage g).1,
          flag⟩ :: rest)
  | classification_failed (g v r gc : Nat) (rest : List (Obs Score)) :
      gc < 5 → (env.GetImage g).1 = TfLiteStatus.kTfLiteOk →
      (env.Invoke v (TensorData.int8 (env.GetImage g).2)).1 ≠ TfLiteStatus.kTfLiteOk →
      RunTrace env flag (g + 1) (v + 1) r gc rest →
      RunTrace env flag g v r gc
        (⟨Event.GetImage env.kNumCols env.kNumRows env.kNumChannels (env.GetImage g).1,
          flag⟩ ::
         ⟨Event.Invoke (env.Invoke v (TensorData.int8 (env.GetImage g).2)).1, flag⟩ :: rest)
  | stored (g v r gc : Nat) (rest : List (Obs Score)) :
      gc < 5 → (env.GetImage g).1 = TfLiteStatus.kTfLiteOk →
      (env.Invoke v (TensorData.int8 (env.GetImage g).2)).1 = TfLiteStatus.kTfLiteOk →
      RunTrace env flag (g + 1) (v + 1) (r + 1) (gc + 1) rest →
      RunTrace env flag g v r gc
        (⟨Event.GetImage env.kNumCols env.kNumRows env.kNumChannels (env.GetImage g).1,
          flag⟩ ::
         ⟨Event.Invoke (env.Invoke v (TensorData.int8 (env.GetImage g).2)).1, flag⟩ ::
         ⟨Event.RespondToDetection
            ((List.range env.kCategoryCount).map
              (env.Invoke v (TensorData.int8 (env.GetImage g).2)).2)
            (env.RespondToDetection r ((List.range env.kCategoryCount).map
              (env.Invoke v (TensorData.int8 (env.GetImage g).2)).2)).val, flag⟩ ::
         ⟨Event.buffer_store gc
            (env.RespondToDetection r ((List.range env.kCategoryCount).map
              (env.Invoke v (TensorData.int8 (env.GetImage g).2)).2)).val, flag⟩ ::
         ⟨Event.vTaskDelay 1, flag⟩ :: rest)

/-- The calls of one execution of the loop body that acquires and classifies,
with the store and the yield that follow them. -/
def success_events (env : Env Score) (s : State Score) (gc : Nat) : List (Obs Score) :=
  let g := GetImage env s
  let v := Invoke env g.2
  let r := RespondToDetection env (digit_scores env v.2) v.2
  [⟨Event.GetImage env.kNumCols env.kNumRows env.kNumChannels g.1, s.ghost_busters⟩,
   ⟨Event.Invoke v.1, s.ghost_busters⟩,
   ⟨Event.RespondToDetection (digit_scores env v.2) r.1, s.ghost_busters⟩,
   ⟨Event.buffer_store gc r.1, s.ghost_busters⟩,
   ⟨Event.vTaskDelay 1, s.ghost_busters⟩]

/-! # Theorems -/

/-! ## Effects of the collaborator calls -/

theorem GetImage_trace (env : Env Score) (s : State Score) :
    (GetImage env s).2.trace = s.trace ++
      [⟨Event.GetImage env.kNumCols env.kNumRows env.kNumChannels (GetImage env s).1,
        s.ghost_busters⟩] := rfl

theorem GetImage_flag (env : Env Score) (s : State Score) :
    (GetImage env s).2.ghost_busters = s.ghost_busters := rfl

theorem Invoke_trace (env : Env Score) (s : State Score) :
    (Invoke env s).2.trace = s.trace ++ [⟨Event.Invoke (Invoke env s).1, s.ghost_busters⟩] :=
  rfl

theorem Invoke_flag (env : Env Score) (s : State Score) :
    (Invoke env s).2.ghost_busters = s.ghost_busters := rfl

theorem RespondToDetection_trace (env : Env Score) (sc : List Score) (s : State Score) :
    (RespondToDetection env sc s).2.trace = s.trace ++
      [⟨Event.RespondToDetection sc (RespondToDetection env sc s).1, s.ghost_busters⟩] := rfl

theorem RespondToDetection_flag (env : Env Score) (sc : List Score) (s : State Score) :
    (RespondToDetection env sc s).2.ghost_busters = s.ghost_busters := rfl

theorem take_succ_set (buf : Buffer) (x : Option Nat) :
    ∀ i, i < buf.length → (buf.set i x).take (i + 1) = buf.take i ++ [x] := by
  induction buf with
  | nil => intro i h; simp at h
  | cons a rest ih =>
    intro i h
    cases i with
    | zero => simp
    | succ j =>
      have hj : j < rest.length := by simpa using h
      simp [ih j hj]

theorem attempts_append (a b : List (Obs Score)) :
    attempts (a ++ b) = attempts a + attempts b := by
  simp [attempts]

theorem failures_append (a b : List (Obs Score)) :
    failures (a ++ b) = failures a + failures b := by
  simp [failures]

theorem sends_append (a b : List (Obs Score)) : sends (a ++ b) = sends a ++ sends b := by
  simp [sends]

theorem stores_append (a b : List (Obs Score)) : stores (a ++ b) = stores a ++ stores b := by
  simp [stores]

theorem responses_append (a b : List (Obs Score)) :
    responses (a ++ b) = responses a ++ responses b := by
  simp [responses]

/-- What a finished detection loop has done, read off the trace. -/
theorem loop_while_spec (env : Env Score) :
    ∀ (fuel : Nat) (s : State Score) (gc : Nat) (buf : Buffer)
      (r : State Score × Nat × Buffer),
      loop_while env fuel s gc buf = Except.ok r → gc ≤ 5 → buf.length = 5 →
      ∃ new, r.1.trace = s.trace ++ new ∧ r.1.ghost_busters = s.ghost_busters ∧
        (∀ o ∈ new, o.flag = s.ghost_busters) ∧ r.2.1 = 5 ∧ sends new = [] ∧
        stores new = (List.range' gc (5 - gc)).zip (responses new) ∧
        (responses new).length = 5 - gc ∧
        r.2.2 = buf.take gc ++ (responses new).map some ∧
        attempts new = (5 - gc) + failures new ∧
        RunTrace env s.ghost_busters s.calls_GetImage s.calls_Invoke
          s.calls_RespondToDetection gc new := by
  intro fuel
  induction fuel with
  | zero => intro s gc buf r h; simp [loop_while] at h
  | succ n ih =>
    intro s gc buf r h hgc hlen
    by_cases hlt : gc < 5
    · rw [loop_while] at h
      simp only [hlt, if_true] at h
      have hin : s.input = true := by
        cases hi : s.input with
        | true => rfl
        | false => simp [hi] at h
      simp only [hin, Bool.true_eq_false, if_false] at h
      have hGe : (GetImage env s).1 = (env.GetImage s.calls_GetImage).1 := rfl
      cases hG : (GetImage env s).1 with
      | kTfLiteError =>
        simp only [hG, ne_eq, not_false_eq_true, if_true, reduceCtorEq] at h
        obtain ⟨new, h1, h2, h3, h4, h5, h6, h7, h8, h9, h10⟩ := ih _ _ _ _ h hgc hlen
        refine ⟨⟨Event.GetImage env.kNumCols env.kNumRows env.kNumChannels
          TfLiteStatus.kTfLiteError, s.ghost_busters⟩ :: new, ?_, ?_, ?_, h4, ?_, ?_, ?_, ?_,
          ?_, ?_⟩
        · rw [h1, GetImage_trace, hG]; simp
        · rw [h2, GetImage_flag]
        · intro o ho
          rcases List.mem_cons.1 ho with rfl | ho
          · rfl
          · rw [h3 o ho, GetImage_flag]
        · simpa [sends, Event.send_args] using h5
        · simpa [stores, responses, Event.store_args, Event.response] using h6
        · simpa [responses, Event.response] using h7
        · simpa [responses, Event.response] using h8
        · simp only [attempts, failures, List.countP_cons, Event.is_GetImage,
            Event.is_failure, if_true] at h9 ⊢
          omega
        · have hne : (env.GetImage s.calls_GetImage).1 ≠ TfLiteStatus.kTfLiteOk := by
            rw [← hGe, hG]; simp
          have := RunTrace.acquisition_failed s.calls_GetImage s.calls_Invoke
            s.calls_RespondToDetection gc new hlt hne h10
          rw [← hGe, hG] at this
          exact this
      | kTfLiteOk =>
        simp only [hG, ne_eq, not_true_eq_false, if_false] at h
        have hip : (GetImage env s).2.interpreter = true := by
          cases hi : (GetImage env s).2.interpreter with
          | true => rfl
          | false => simp [hi] at h
        simp only [hip, Bool.true_eq_false, if_false] at h
        have hIe : (Invoke env (GetImage env s).2).1 =
            (env.Invoke s.calls_Invoke (TensorData.int8 (env.GetImage s.calls_GetImage).2)).1 :=
          rfl
        cases hI : (Invoke env (GetImage env s).2).1 with
        | kTfLiteError =>
          simp only [hI, not_false_eq_true, if_true, reduceCtorEq] at h
          obtain ⟨new, h1, h2, h3, h4, h5, h6, h7, h8, h9, h10⟩ := ih _ _ _ _ h hgc hlen
          refine ⟨⟨Event.GetImage env.kNumCols env.kNumRows env.kNumChannels
            TfLiteStatus.kTfLiteOk, s.ghost_busters⟩ ::
            ⟨Event.Invoke TfLiteStatus.kTfLiteError, s.ghost_busters⟩ :: new,
            ?_, ?_, ?_, h4, ?_, ?_, ?_, ?_, ?_, ?_⟩
          · rw [h1, Invoke_trace, hI, GetImage_trace, hG, GetImage_flag]; simp
          · rw [h2, Invoke_flag, GetImage_flag]
          · intro o ho
            rcases List.mem_cons.1 ho with rfl | ho
            · rfl
            · rcases List.mem_cons.1 ho with rfl | ho
              · rfl
              · rw [h3 o ho, Invoke_flag, GetImage_flag]
          · simpa [sends, Event.send_args] using h5
          · simpa [stores, responses, Event.store_args, Event.response] using h6
          · simpa [responses, Event.response] using h7
          · simpa [responses, Event.response] using h8
          · simp only [attempts, failures, List.countP_cons, Event.is_GetImage,
              Event.is_failure, if_true] at h9 ⊢
            simp at h9 ⊢
            omega
          · have hne : (env.Invoke s.calls_Invoke
                (TensorData.int8 (env.GetImage s.calls_GetImage).2)).1 ≠
                TfLiteStatus.kTfLiteOk := by
              rw [← hIe, hI]; simp
            have := RunTrace.classification_failed s.calls_GetImage s.calls_Invoke
              s.calls_RespondToDetection gc new hlt (hGe ▸ hG) hne h10
            rw [← hGe, hG, ← hIe, hI] at this
            exact this
        | kTfLiteOk =>
          simp only [hI, not_true_eq_false, if_false] at h
          have hst : buffer_store buf gc
              (RespondToDetection env (digit_scores env (Invoke env (GetImage env s).2).2)
                (Invoke env (GetImage env s).2).2).1 =
              Except.ok (buf.set gc (some (RespondToDetection env
                (digit_scores env (Invoke env (GetImage env s).2).2)
                (Invoke env (GetImage env s).2).2).1)) := by
            simp [buffer_store, hlen, hlt]
          rw [hst] at h
          simp only at h
          obtain ⟨new, h1, h2, h3, h4, h5, h6, h7, h8, h9, h10⟩ :=
            ih _ _ _ _ h (by omega) (by simpa using hlen)
          have hflag : (vTaskDelay 1 (emit (Event.buffer_store gc (RespondToDetection env
                (digit_scores env (Invoke env (GetImage env s).2).2)
                (Invoke env (GetImage env s).2).2).1)
              (RespondToDetection env (digit_scores env (Invoke env (GetImage env s).2).2)
                (Invoke env (GetImage env s).2).2).2)).ghost_busters = s.ghost_busters := rfl
          have htr : (vTaskDelay 1 (emit (Event.buffer_store gc (RespondToDetection env
                (digit_scores env (Invoke env (GetImage env s).2).2)
                (Invoke env (GetImage env s).2).2).1)
              (RespondToDetection env (digit_scores env (Invoke env (GetImage env s).2).2)
                (Invoke env (GetImage env s).2).2).2)).trace =
              s.trace ++ success_events env s gc := by
            simp [vTaskDelay, emit, success_events, RespondToDetection, Invoke, GetImage]
          rw [htr] at h1
          rw [hflag] at h2 h3
          have hev : success_events env s gc =
              [⟨Event.GetImage env.kNumCols env.kNumRows env.kNumChannels
                  TfLiteStatus.kTfLiteOk, s.ghost_busters⟩,
               ⟨Event.Invoke TfLiteStatus.kTfLiteOk, s.ghost_busters⟩,
               ⟨Event.RespondToDetection (digit_scores env (Invoke env (GetImage env s).2).2)
                  (RespondToDetection env (digit_scores env (Invoke env (GetImage env s).2).2)
                    (Invoke env (GetImage env s).2).2).1, s.ghost_busters⟩,
               ⟨Event.buffer_store gc (RespondToDetection env
                  (digit_scores env (Invoke env (GetImage env s).2).2)
                  (Invoke env (GetImage env s).2).2).1, s.ghost_busters⟩,
               ⟨Event.vTaskDelay 1, s.ghost_busters⟩] := by
            simp only [success_events, hG, hI]
          refine ⟨success_events env s gc ++ new, ?_, h2, ?_, h4, ?_, ?_, ?_, ?_, ?_, ?_⟩
          · rw [h1, List.append_assoc]
          · intro o ho
            rcases List.mem_append.1 ho with ho | ho
            · rw [hev] at ho
              simp only [List.mem_cons, List.mem_singleton, List.not_mem_nil, or_false] at ho
              rcases ho with rfl | rfl | rfl | rfl | rfl <;> rfl
            · exact h3 o ho
          · rw [hev]; simpa [sends, Event.send_args] using h5
          · rw [hev]
            have hr : List.range' gc (5 - gc) = gc :: List.range' (gc + 1) (5 - (gc + 1)) := by
              have : 5 - gc = (5 - (gc + 1)) + 1 := by omega
              rw [this, List.range'_succ]
            rw [hr]
            simpa [stores, responses, Event.store_args, Event.response] using h6
          · rw [hev]
            simp only [responses, Event.response] at h7 ⊢
            simp [List.filterMap_cons, Event.response, h7]
            omega
          · rw [hev, h8, take_succ_set buf _ gc (by omega)]
            simp [responses, Event.response]
          · have ha : attempts (success_events env s gc) = 1 := by rw [hev]; rfl
            have hf : failures (success_events env s gc) = 0 := by rw [hev]; rfl
            rw [attempts_append, failures_append, ha, hf, h9]
            omega
          · have := RunTrace.stored s.calls_GetImage s.calls_Invoke
              s.calls_RespondToDetection gc new hlt (hGe ▸ hG) (hIe ▸ hI) h10
            exact this
    · have hgc5 : gc = 5 := by omega
      rw [loop_while] at h
      simp only [hlt, if_false] at h
      cases h
      refine ⟨[], by simp, rfl, by simp, hgc5, rfl, ?_, ?_, ?_, ?_, ?_⟩
      · simp [stores, responses, hgc5]
      · simp [responses, hgc5]
      · simp [responses, hgc5, ← hlen]
      · simp [attempts, failures, hgc5]
      · rw [hgc5]; exact RunTrace.finished _ _ _

/-- With `input` and `interpreter` bound and failures confined to the first `N`
acquisitions and the first `M` classifications, the detection loop finishes
within the given fuel. -/
theorem loop_while_terminates (env : Env Score) (N M : Nat)
    (hG : ∀ n, N ≤ n → (env.GetImage n).1 = TfLiteStatus.kTfLiteOk)
    (hI : ∀ n d, M ≤ n → (env.Invoke n d).1 = TfLiteStatus.kTfLiteOk) :
    ∀ (fuel : Nat) (s : State Score) (gc : Nat) (buf : Buffer),
      s.input = true → s.interpreter = true → gc ≤ 5 → buf.length = 5 →
      (N - s.calls_GetImage) + (M - s.calls_Invoke) + (5 - gc) < fuel →
      ∃ r, loop_while env fuel s gc buf = Except.ok r := by
  intro fuel
  induction fuel with
  | zero => intro s gc buf _ _ _ _ h; omega
  | succ n ih =>
    intro s gc buf hin hip hgc hlen hfuel
    by_cases hlt : gc < 5
    · rw [loop_while]
      have hip1 : (GetImage env s).2.interpreter = true := hip
      simp only [hlt, if_true, hin, hip1, Bool.true_eq_false, if_false]
      have hcG : (GetImage env s).2.calls_GetImage = s.calls_GetImage + 1 := rfl
      have hcI : (GetImage env s).2.calls_Invoke = s.calls_Invoke := rfl
      cases hGs : (GetImage env s).1 with
      | kTfLiteError =>
        simp only [ne_eq, not_false_eq_true, if_true, reduceCtorEq]
        have hN : s.calls_GetImage < N := by
          by_contra hc
          have := hG s.calls_GetImage (by omega)
          have h2 : (GetImage env s).1 = (env.GetImage s.calls_GetImage).1 := rfl
          rw [h2, this] at hGs
          cases hGs
        exact ih _ _ _ hin hip hgc hlen (by rw [hcG, hcI]; omega)
      | kTfLiteOk =>
        simp only [ne_eq, not_true_eq_false, if_false]
        have hdG : (Invoke env (GetImage env s).2).2.calls_GetImage = s.calls_GetImage + 1 :=
          rfl
        have hdI : (Invoke env (GetImage env s).2).2.calls_Invoke = s.calls_Invoke + 1 := rfl
        cases hIs : (Invoke env (GetImage env s).2).1 with
        | kTfLiteError =>
          simp only [not_false_eq_true, if_true, reduceCtorEq]
          have hM : s.calls_Invoke < M := by
            by_contra hc
            have := hI s.calls_Invoke (GetImage env s).2.input_data (by omega)
            have h2 : (Invoke env (GetImage env s).2).1 =
                (env.Invoke s.calls_Invoke (GetImage env s).2.input_data).1 := rfl
            rw [h2, this] at hIs
            cases hIs
          exact ih _ _ _ hin hip hgc hlen (by rw [hdG, hdI]; omega)
        | kTfLiteOk =>
          simp only [not_true_eq_false, if_false]
          have hst : buffer_store buf gc
              (RespondToDetection env (digit_scores env (Invoke env (GetImage env s).2).2)
                (Invoke env (GetImage env s).2).2).1 =
              Except.ok (buf.set gc (some (RespondToDetection env
                (digit_scores env (Invoke env (GetImage env s).2).2)
                (Invoke env (GetImage env s).2).2).1)) := by
            simp [buffer_store, hlen, hlt]
          rw [hst]
          simp only
          refine ih _ _ _ hin hip (by omega) (by simpa using hlen) ?_
          have e1 : (vTaskDelay 1 (emit (Event.buffer_store gc (RespondToDetection env
                (digit_scores env (Invoke env (GetImage env s).2).2)
                (Invoke env (GetImage env s).2).2).1)
              (RespondToDetection env (digit_scores env (Invoke env (GetImage env s).2).2)
                (Invoke env (GetImage env s).2).2).2)).calls_GetImage =
              s.calls_GetImage + 1 := rfl
          have e2 : (vTaskDelay 1 (emit (Event.buffer_store gc (RespondToDetection env
                (digit_scores env (Invoke env (GetImage env s).2).2)
                (Invoke env (GetImage env s).2).2).1)
              (RespondToDetection env (digit_scores env (Invoke env (GetImage env s).2).2)
                (Invoke env (GetImage env s).2).2).2)).calls_Invoke =
              s.calls_Invoke + 1 := rfl
          rw [e1, e2]
          omega
    · rw [loop_while]
      simp only [hlt, if_false]
      exact ⟨_, rfl⟩

theorem new_events_append (s s' : State Score) (new : List (Obs Score))
    (h : s'.trace = s.trace ++ new) : new_events s s' = new := by
  simp [new_events, h]

/-- What lines 224 to 257 of `loop` have done when the send is about to be issued. -/
theorem loop_run_spec (env : Env Score) (fuel : Nat) (s : State Score)
    (r : State Score × Nat × Buffer) (h : loop_run env fuel s = Except.ok r) :
    ∃ new, r.1.trace = s.trace ++ new ∧ r.1.ghost_busters = s.ghost_busters ∧
      (∀ o ∈ new, o.flag = s.ghost_busters) ∧ r.2.1 = 5 ∧ sends new = [] ∧
      stores new = [0, 1, 2, 3, 4].zip (responses new) ∧
      (responses new).length = 5 ∧
      r.2.2 = (responses new).map some ∧
      attempts new = 5 + failures new ∧
      ∃ rest, new = ⟨Event.vTaskDelay (7000 / env.portTICK_PERIOD_MS), s.ghost_busters⟩ ::
          rest ∧
        RunTrace env s.ghost_busters s.calls_GetImage s.calls_Invoke
          s.calls_RespondToDetection 0 rest := by
  unfold loop_run at h
  obtain ⟨new, h1, h2, h3, h4, h5, h6, h7, h8, h9, h10⟩ :=
    loop_while_spec env fuel _ 0 _ r h (by omega) (by simp)
  refine ⟨⟨Event.vTaskDelay (7000 / env.portTICK_PERIOD_MS), s.ghost_busters⟩ :: new,
    ?_, h2, ?_, h4, ?_, ?_, ?_, ?_, ?_, ⟨new, rfl, h10⟩⟩
  · rw [h1]; simp [vTaskDelay, emit]
  · intro o ho
    rcases List.mem_cons.1 ho with rfl | ho
    · rfl
    · exact h3 o ho
  · simpa [sends, Event.send_args] using h5
  · have hr : List.range' 0 (5 - 0) = [0, 1, 2, 3, 4] := by decide
    rw [hr] at h6
    simpa [stores, responses, Event.store_args, Event.response] using h6
  · simpa [responses, Event.response] using h7
  · simpa [responses, Event.response] using h8
  · simp only [attempts, failures, List.countP_cons, Event.is_GetImage,
      Event.is_failure] at h9 ⊢
    simp at h9 ⊢
    omega

/-- A poll tick that sees the trigger flag set runs lines 224 to 257, issues
the send and clears the flag, in this order. -/
theorem loop_spec (env : Env Score) (fuel : Nat) (s s' : State Score)
    (hflag : s.ghost_busters = true) (h : loop env fuel s = Except.ok s') :
    ∃ r, loop_run env fuel s = Except.ok r ∧
      s'.trace = r.1.trace ++
        [⟨Event.esp_now_send peer_mac
          ((List.range 32).map (bytes_from [1, 1, 1, 1, 1] (env.stack_beyond_tmp r.1 r.2.2)))
          32, r.1.ghost_busters⟩] ∧
      s'.ghost_busters = false := by
  unfold loop at h
  simp only [hflag, if_true] at h
  cases hr : loop_run env fuel s with
  | error e => simp [hr] at h
  | ok r =>
    simp only [hr] at h
    cases h
    exact ⟨r, rfl, rfl, rfl⟩

/-! ## Start-up sequencer -/

@[simp] theorem emit_fields (e : Event Score) (s : State Score) :
    (emit e s).trace = s.trace ++ [⟨e, s.ghost_busters⟩] ∧
      (emit e s).ghost_busters = s.ghost_busters ∧
      (emit e s).model = s.model ∧
      (emit e s).tensor_arena = s.tensor_arena ∧
      (emit e s).static_interpreter = s.static_interpreter ∧
      (emit e s).interpreter = s.interpreter ∧
      (emit e s).input = s.input ∧
      (emit e s).aborted = s.aborted :=
  ⟨rfl, rfl, rfl, rfl, rfl, rfl, rfl, rfl⟩

@[simp] theorem set_model_fields (v : Option Nat) (s : State Score) :
    (set_model v s).trace = s.trace ∧
      (set_model v s).ghost_busters = s.ghost_busters ∧
      (set_model v s).model = v ∧
      (set_model v s).tensor_arena = s.tensor_arena ∧
      (set_model v s).static_interpreter = s.static_interpreter ∧
      (set_model v s).interpreter = s.interpreter ∧
      (set_model v s).input = s.input ∧
      (set_model v s).aborted = s.aborted :=
  ⟨rfl, rfl, rfl, rfl, rfl, rfl, rfl, rfl⟩

@[simp] theorem set_tensor_arena_fields (v : Option Nat) (s : State Score) :
    (set_tensor_arena v s).trace = s.trace ∧
      (set_tensor_arena v s).ghost_busters = s.ghost_busters ∧
      (set_tensor_arena v s).model = s.model ∧
      (set_tensor_arena v s).tensor_arena = v ∧
      (set_tensor_arena v s).static_interpreter = s.static_interpreter ∧
      (set_tensor_arena v s).interpreter = s.interpreter ∧
      (set_tensor_arena v s).input = s.input ∧
      (set_tensor_arena v s).aborted = s.aborted :=
  ⟨rfl, rfl, rfl, rfl, rfl, rfl, rfl, rfl⟩

@[simp] theorem set_static_interpreter_fields (v : Bool) (s : State Score) :
    (set_static_interpreter v s).trace = s.trace ∧
      (set_static_interpreter v s).ghost_busters = s.ghost_busters ∧
      (set_static_interpreter v s).model = s.model ∧
      (set_static_interpreter v s).tensor_arena = s.tensor_arena ∧
      (set_static_interpreter v s).static_interpreter = v ∧
      (set_static_interpreter v s).interpreter = s.interpreter ∧
      (set_static_interpreter v s).input = s.input ∧
      (set_static_interpreter v s).aborted = s.aborted :=
  ⟨rfl, rfl, rfl, rfl, rfl, rfl, rfl, rfl⟩

@[simp] theorem set_interpreter_fields (v : Bool) (s : State Score) :
    (set_interpreter v s).trace = s.trace ∧
      (set_interpreter v s).ghost_busters = s.ghost_busters ∧
      (set_interpreter v s).model = s.model ∧
      (set_interpreter v s).tensor_arena = s.tensor_arena ∧
      (set_interpreter v s).static_interpreter = s.static_interpreter ∧
      (set_interpreter v s).interpreter = v ∧
      (set_interpreter v s).input = s.input ∧
      (set_interpreter v s).aborted = s.aborted :=
  ⟨rfl, rfl, rfl, rfl, rfl, rfl, rfl, rfl⟩

@[simp] theorem set_input_fields (v : Bool) (s : State Score) :
    (set_input v s).trace = s.trace ∧
      (set_input v s).ghost_busters = s.ghost_busters ∧
      (set_input v s).model = s.model ∧
      (set_input v s).tensor_arena = s.tensor_arena ∧
      (set_input v s).static_interpreter = s.static_interpreter ∧
      (set_input v s).interpreter = s.interpreter ∧
      (set_input v s).input = v ∧
      (set_input v s).aborted = s.aborted :=
  ⟨rfl, rfl, rfl, rfl, rfl, rfl, rfl, rfl⟩

/-- The start-up sequencer never writes the trigger flag. -/
theorem setup_flag (env : Env Score) (s : State Score) :
    (setup env s).ghost_busters = s.ghost_busters := by
  unfold setup
  simp only [ESP_ERROR_CHECK, init_wifi, init_esp_now, register_peer, if_true]
  split_ifs <;> simp

/-! ## The detection run -/

/-- C1: a run of `loop` started on a set-up device (`input` and `interpreter`
bound) with the trigger flag set, in which acquisition fails only among the
first `N` calls and classification only among the first `M` calls, terminates
(any fuel from `N + M + 6` on suffices); at the moment the send is issued (`s1`,
the state from which the tick goes on to send) exactly five outcome codes are
stored: the run buffer is the list of the codes `RespondToDetection` returned,
in order, it has five cells, the stores went to the indices 0, 1, 2, 3, 4 in
this order with these codes, and the loop body ran 5 + k times, k the number of
failed acquisitions and classifications.  After the settle delay the trace is a
`RunTrace`: every execution of the body is a failed acquisition, a failed
classification, or a successful classification followed by the responder call
on its scores and the store of the returned code into the next cell, so a
failed attempt stores nothing and does not advance the count. -/
theorem C1_run_stores_exactly_five (env : Env Score) (s : State Score) (N M fuel : Nat)
    (hflag : s.ghost_busters = true)
    (hinput : s.input = true) (hinterpreter : s.interpreter = true)
    (hG : ∀ n, N ≤ n → (env.GetImage n).1 = TfLiteStatus.kTfLiteOk)
    (hI : ∀ n d, M ≤ n → (env.Invoke n d).1 = TfLiteStatus.kTfLiteOk)
    (hfuel : N + M + 6 ≤ fuel) :
    ∃ (s1 s' : State Score) (buffer : Buffer) (rest : List (Obs Score)),
      loop_run env fuel s = Except.ok (s1, 5, buffer) ∧
      loop env fuel s = Except.ok s' ∧
      sends (new_events s s1) = [] ∧
      (sends (new_events s1 s')).length = 1 ∧
      buffer = (responses (new_events s s1)).map some ∧
      buffer.length = 5 ∧
      stores (new_events s s1) = [0, 1, 2, 3, 4].zip (responses (new_events s s1)) ∧
      attempts (new_events s s1) = 5 + failures (new_events s s1) ∧
      new_events s s1 =
        ⟨Event.vTaskDelay (7000 / env.portTICK_PERIOD_MS), true⟩ :: rest ∧
      RunTrace env true s.calls_GetImage s.calls_Invoke s.calls_RespondToDetection 0 rest := by
  obtain ⟨r, hr⟩ := loop_while_terminates env N M hG hI fuel
    (vTaskDelay (7000 / env.portTICK_PERIOD_MS) s) 0 (List.replicate 5 none)
    hinput hinterpreter (by omega) (by simp) (by omega)
  have hrun : loop_run env fuel s = Except.ok r := hr
  obtain ⟨new, h1, h2, h3, h4, h5, h6, h7, h8, h9, rest, h10, h11⟩ :=
    loop_run_spec env _ s r hrun
  have hnew : new_events s r.1 = new := new_events_append s r.1 new h1
  obtain ⟨s1, gc, buffer⟩ := r
  simp only at h1 h2 h4 h8 hnew
  subst h4
  rw [hflag] at h10 h11
  have hloop : loop env fuel s = Except.ok
      { (esp_now_send_data peer_mac
          (bytes_from [1, 1, 1, 1, 1] (env.stack_beyond_tmp s1 buffer)) 32 s1).2 with
        ghost_busters := false } := by
    unfold loop
    simp only [hflag, if_true, hrun]
  refine ⟨s1, _, buffer, rest, hrun, hloop, ?_, ?_, ?_, ?_, ?_, ?_, ?_, h11⟩
  · rw [hnew]; exact h5
  · have : new_events s1 ({ (esp_now_send_data peer_mac
          (bytes_from [1, 1, 1, 1, 1] (env.stack_beyond_tmp s1 buffer)) 32 s1).2 with
        ghost_busters := false } : State Score) =
        [⟨Event.esp_now_send peer_mac
          ((List.range 32).map (bytes_from [1, 1, 1, 1, 1] (env.stack_beyond_tmp s1 buffer)))
          32, s1.ghost_busters⟩] :=
      new_events_append _ _ _ rfl
    rw [this]; rfl
  · rw [hnew]; exact h8
  · rw [h8]; simpa using h7
  · rw [hnew]; exact h6
  · rw [hnew]; exact h9
  · rw [hnew]; exact h10

/-- Witness for C1: on the set-up device the first acquisition and the second
classification fail; the run still ends with five stored codes after seven
executions of the body. -/
theorem C1_run_stores_exactly_five_witness :
    demo_armed.ghost_busters = true ∧ demo_armed.input = true ∧
    demo_armed.interpreter = true ∧
    ∃ (s1 s' : State Nat) (buffer : Buffer) (rest : List (Obs Nat)),
      loop_run flaky_env 9 demo_armed = Except.ok (s1, 5, buffer) ∧
      loop flaky_env 9 demo_armed = Except.ok s' ∧
      sends (new_events demo_armed s1) = [] ∧
      (sends (new_events s1 s')).length = 1 ∧
      buffer = (responses (new_events demo_armed s1)).map some ∧
      buffer.length = 5 ∧
      stores (new_events demo_armed s1) =
        [0, 1, 2, 3, 4].zip (responses (new_events demo_armed s1)) ∧
      attempts (new_events demo_armed s1) = 5 + failures (new_events demo_armed s1) ∧
      new_events demo_armed s1 =
        ⟨Event.vTaskDelay (7000 / flaky_env.portTICK_PERIOD_MS), true⟩ :: rest ∧
      RunTrace flaky_env true demo_armed.calls_GetImage demo_armed.calls_Invoke
        demo_armed.calls_RespondToDetection 0 rest :=
  ⟨rfl, rfl, rfl, C1_run_stores_exactly_five flaky_env demo_armed 1 2 9 rfl rfl rfl
    (by intro n hn; have h0 : n ≠ 0 := by omega
        simp [flaky_env, h0])
    (by intro n d hn; have h1 : n ≠ 1 := by omega
        simp [flaky_env, h1])
    (by decide)⟩

/-- C2: a poll tick that sees the trigger flag set and terminates issues
exactly one send; it is addressed to `peer_mac`, it is the last call of the
tick, no send precedes it, five codes have been stored into the run buffer
before it (the fifth into cell 4), and the flag is false when the tick returns.
The address `peer_mac` is the one `register_peer` enters into the peer table. -/
theorem C2_one_send_after_fifth_store (env : Env Score) (fuel : Nat) (s s' : State Score)
    (hflag : s.ghost_busters = true) (h : loop env fuel s = Except.ok s') :
    ∃ (before : List (Obs Score)) (data : List Nat) (len : Nat) (flag : Bool),
      new_events s s' = before ++ [⟨Event.esp_now_send peer_mac data len, flag⟩] ∧
      sends (new_events s s') = [(peer_mac, data, len)] ∧
      sends before = [] ∧
      (stores before).map Prod.fst = [0, 1, 2, 3, 4] ∧
      s'.ghost_busters = false ∧
      (∀ (addr : List Nat) (s0 : State Score),
        new_events s0 (register_peer env addr s0).2 =
          [⟨Event.esp_now_add_peer peer_mac ESP_CHANNEL env.esp_now_add_peer,
            s0.ghost_busters⟩]) := by
  obtain ⟨r, hrun, htr, hfl⟩ := loop_spec env fuel s s' hflag h
  obtain ⟨new, h1, h2, h3, h4, h5, h6, h7, h8, h9, -⟩ := loop_run_spec env _ s r hrun
  have hnew : new_events s s' =
      new ++ [⟨Event.esp_now_send peer_mac
        ((List.range 32).map (bytes_from [1, 1, 1, 1, 1] (env.stack_beyond_tmp r.1 r.2.2)))
        32, r.1.ghost_busters⟩] := by
    apply new_events_append
    rw [htr, h1, List.append_assoc]
  refine ⟨new, _, 32, r.1.ghost_busters, hnew, ?_, h5, ?_, hfl,
    fun _ _ => new_events_append _ _ _ rfl⟩
  · rw [hnew, sends_append, h5]; rfl
  · rw [h6]
    match hresp : responses new, h7 with
    | [a, b, c, d, e], _ => rfl

/-- Witness for C2: the run of the always-succeeding collaborators on the
set-up device. -/
theorem C2_one_send_after_fifth_store_witness :
    demo_armed.ghost_busters = true ∧
    loop demo_env 6 demo_armed = Except.ok (tick demo_env 6 demo_armed) ∧
    ∃ (before : List (Obs Nat)) (data : List Nat) (len : Nat) (flag : Bool),
      new_events demo_armed (tick demo_env 6 demo_armed) =
        before ++ [⟨Event.esp_now_send peer_mac data len, flag⟩] ∧
      sends (new_events demo_armed (tick demo_env 6 demo_armed)) = [(peer_mac, data, len)] ∧
      sends before = [] ∧
      (stores before).map Prod.fst = [0, 1, 2, 3, 4] ∧
      (tick demo_env 6 demo_armed).ghost_busters = false ∧
      (∀ (addr : List Nat) (s0 : State Nat),
        new_events s0 (register_peer demo_env addr s0).2 =
          [⟨Event.esp_now_add_peer peer_mac ESP_CHANNEL demo_env.esp_now_add_peer,
            s0.ghost_busters⟩]) :=
  ⟨rfl, rfl, C2_one_send_after_fifth_store demo_env 6 demo_armed _ rfl rfl⟩

/-- C4, refuted as stated: on the set-up device (`input` and `interpreter`
bound) with the trigger flag set and always-succeeding collaborators the tick
terminates, yet it is not the case that the trigger flag is false at every
frame acquisition and at the send. -/
theorem C4_flag_still_set_during_run :
    demo_armed.input = true ∧ demo_armed.interpreter = true ∧
    loop demo_env 6 demo_armed = Except.ok (tick demo_env 6 demo_armed) ∧
    attempts (new_events demo_armed (tick demo_env 6 demo_armed)) = 5 ∧
    (sends (new_events demo_armed (tick demo_env 6 demo_armed))).length = 1 ∧
    ¬ (∀ o ∈ new_events demo_armed (tick demo_env 6 demo_armed),
        (o.ev.is_GetImage = true ∨ o.ev.send_args.isSome = true) → o.flag = false) := by
  refine ⟨rfl, rfl, rfl, by decide, by decide, ?_⟩
  decide

/-- C4, amended: when a poll tick sees the trigger flag set and terminates, the
flag is true at every call of the run (settle delay, acquisitions,
classifications, responder calls, buffer stores and the send, which is the last
call), and it is false when the tick returns: the flag is cleared after the
send, not on entry. -/
theorem C4_flag_cleared_after_send (env : Env Score) (fuel : Nat) (s s' : State Score)
    (hflag : s.ghost_busters = true) (h : loop env fuel s = Except.ok s') :
    (∀ o ∈ new_events s s', o.flag = true) ∧
    (∃ (before : List (Obs Score)) (data : List Nat) (len : Nat),
      new_events s s' = ⟨Event.vTaskDelay (7000 / env.portTICK_PERIOD_MS), true⟩ ::
        before ++ [⟨Event.esp_now_send peer_mac data len, true⟩]) ∧
    s'.ghost_busters = false := by
  obtain ⟨r, hrun, htr, hfl⟩ := loop_spec env fuel s s' hflag h
  unfold loop_run at hrun
  obtain ⟨new, h1, h2, h3, -⟩ := loop_while_spec env fuel _ 0 _ r hrun (by omega) (by simp)
  have hf0 : (vTaskDelay (7000 / env.portTICK_PERIOD_MS) s).ghost_busters = true := hflag
  rw [hf0] at h2 h3
  have hnew : new_events s s' =
      ⟨Event.vTaskDelay (7000 / env.portTICK_PERIOD_MS), true⟩ :: new ++
        [⟨Event.esp_now_send peer_mac
          ((List.range 32).map (bytes_from [1, 1, 1, 1, 1] (env.stack_beyond_tmp r.1 r.2.2)))
          32, true⟩] := by
    apply new_events_append
    rw [htr, h1, h2]
    simp [vTaskDelay, emit, hflag]
  refine ⟨?_, ⟨new, _, 32, hnew⟩, hfl⟩
  intro o ho
  rw [hnew] at ho
  simp only [List.cons_append, List.mem_cons, List.mem_append, List.mem_singleton,
    List.not_mem_nil, or_false] at ho
  rcases ho with rfl | ho | rfl
  · rfl
  · exact h3 o ho
  · rfl

/-- Witness for the amended C4: the run of the always-succeeding collaborators
on the set-up device. -/
theorem C4_flag_cleared_after_send_witness :
    demo_armed.ghost_busters = true ∧
    loop demo_env 6 demo_armed = Except.ok (tick demo_env 6 demo_armed) ∧
    (∀ o ∈ new_events demo_armed (tick demo_env 6 demo_armed), o.flag = true) ∧
    (tick demo_env 6 demo_armed).ghost_busters = false :=
  ⟨rfl, rfl, (C4_flag_cleared_after_send demo_env 6 demo_armed _ rfl rfl).1,
    (C4_flag_cleared_after_send demo_env 6 demo_armed _ rfl rfl).2.2⟩

/-- C7, evaluated on the set-up device (`input` and `interpreter` bound) with
the trigger flag set and always-succeeding collaborators: the tick terminates
and its one send declares the length 32 for the five-byte array 1, 1, 1, 1, 1,
so `esp_now_send` reads 27 bytes past the end of the array (here the run buffer
with its five codes 2, then 22 further bytes).  Whatever lies beyond the array,
the 32 bytes read are the five of the array followed by 27 from beyond it. -/
theorem C7_send_declares_32_for_5_bytes :
    demo_armed.input = true ∧ demo_armed.interpreter = true ∧
    loop demo_env 6 demo_armed = Except.ok (tick demo_env 6 demo_armed) ∧
    sends (new_events demo_armed (tick demo_env 6 demo_armed)) =
      [(peer_mac, [1, 1, 1, 1, 1] ++ [2, 2, 2, 2, 2] ++ List.replicate 22 0, 32)] ∧
    ([1, 1, 1, 1, 1] : List Nat).length + 27 = 32 ∧
    (∀ beyond : Nat → Nat,
      (List.range 32).map (bytes_from [1, 1, 1, 1, 1] beyond) =
        [1, 1, 1, 1, 1] ++ (List.range 27).map beyond) := by
  refine ⟨rfl, rfl, rfl, ?_, rfl, ?_⟩
  · decide
  · intro beyond
    rfl

/-- C8, evaluated on two runs from the same set-up device with the trigger flag
set, in a build whose stack has the run buffer right after `tmp`: both ticks
terminate, the run that stored the codes 2, 2, 2, 2, 2 sends them as bytes 5 to
9 of its payload and the run that stored 0, 1, 2, 3, 4 (after two failed
attempts) sends those, so the payload bytes of the two sends differ. -/
theorem C8_sent_bytes_depend_on_run :
    demo_armed.input = true ∧ demo_armed.interpreter = true ∧
    loop demo_env 6 demo_armed = Except.ok (tick demo_env 6 demo_armed) ∧
    loop flaky_env 8 demo_armed = Except.ok (tick flaky_env 8 demo_armed) ∧
    stores (new_events demo_armed (tick demo_env 6 demo_armed)) =
      [(0, 2), (1, 2), (2, 2), (3, 2), (4, 2)] ∧
    stores (new_events demo_armed (tick flaky_env 8 demo_armed)) =
      [(0, 0), (1, 1), (2, 2), (3, 3), (4, 4)] ∧
    sends (new_events demo_armed (tick demo_env 6 demo_armed)) =
      [(peer_mac, [1, 1, 1, 1, 1] ++ [2, 2, 2, 2, 2] ++ List.replicate 22 0, 32)] ∧
    sends (new_events demo_armed (tick flaky_env 8 demo_armed)) =
      [(peer_mac, [1, 1, 1, 1, 1] ++ [0, 1, 2, 3, 4] ++ List.replicate 22 0, 32)] ∧
    sends (new_events demo_armed (tick demo_env 6 demo_armed)) ≠
      sends (new_events demo_armed (tick flaky_env 8 demo_armed)) := by
  refine ⟨rfl, rfl, rfl, rfl, ?_, ?_, ?_, ?_, ?_⟩ <;> decide

/-! ## Single-shot path -/

/-- The single-shot path never writes the trigger flag. -/
theorem run_inference_flag (env : Env Score) (ptr : Nat → Nat) (s s' : State Score)
    (h : run_inference env ptr s = Except.ok s') : s'.ghost_busters = s.ghost_busters := by
  by_cases h1 : 0 < env.kNumCols * env.kNumRows ∧ s.input = false
  · simp [run_inference, h1] at h
  · by_cases h2 : s.interpreter = false
    · simp [run_inference, h1, h2] at h
    · simp only [run_inference, h1, h2, if_false, ite_self] at h
      cases h
      rfl

/-- C9: on a set-up device (`input` and `interpreter` bound) `run_inference`
returns, for every frame `ptr` and every answer of the classifier, after exactly
two collaborator calls: one `Invoke` on the converted frame, then one
`RespondToDetection` with the `kCategoryCount` output scores in category order.
It acquires no frame, issues no send, stores nothing into a run buffer and
leaves the trigger flag as it was. -/
theorem C9_run_inference_frame (env : Env Score) (ptr : Nat → Nat) (s : State Score)
    (hinput : s.input = true) (hinterpreter : s.interpreter = true) :
    ∃ s', run_inference env ptr s = Except.ok s' ∧
    new_events s s' =
      [⟨Event.Invoke (env.Invoke s.calls_Invoke (TensorData.f (input_floats env ptr))).1,
          s.ghost_busters⟩,
       ⟨Event.RespondToDetection
          ((List.range env.kCategoryCount).map
            (env.Invoke s.calls_Invoke (TensorData.f (input_floats env ptr))).2)
          (env.RespondToDetection s.calls_RespondToDetection
            ((List.range env.kCategoryCount).map
              (env.Invoke s.calls_Invoke (TensorData.f (input_floats env ptr))).2)).val,
          s.ghost_busters⟩] ∧
    (new_events s s').countP (fun o => o.ev.is_Invoke) = 1 ∧
    (responses (new_events s s')).length = 1 ∧
    attempts (new_events s s') = 0 ∧
    sends (new_events s s') = [] ∧
    stores (new_events s s') = [] ∧
    s'.calls_GetImage = s.calls_GetImage ∧
    s'.ghost_busters = s.ghost_busters := by
  have hrun : run_inference env ptr s = Except.ok
      (RespondToDetection env
        (digit_scores env (Invoke env
          { s with input_data := TensorData.f (input_floats env ptr) }).2)
        (Invoke env { s with input_data := TensorData.f (input_floats env ptr) }).2).2 := by
    unfold run_inference
    simp [hinput, hinterpreter]
  refine ⟨_, hrun, ?_⟩
  have hnew : new_events s (RespondToDetection env
        (digit_scores env (Invoke env
          { s with input_data := TensorData.f (input_floats env ptr) }).2)
        (Invoke env { s with input_data := TensorData.f (input_floats env ptr) }).2).2 =
      [⟨Event.Invoke (env.Invoke s.calls_Invoke (TensorData.f (input_floats env ptr))).1,
          s.ghost_busters⟩,
       ⟨Event.RespondToDetection
          ((List.range env.kCategoryCount).map
            (env.Invoke s.calls_Invoke (TensorData.f (input_floats env ptr))).2)
          (env.RespondToDetection s.calls_RespondToDetection
            ((List.range env.kCategoryCount).map
              (env.Invoke s.calls_Invoke (TensorData.f (input_floats env ptr))).2)).val,
          s.ghost_busters⟩] := by
    apply new_events_append
    simp [RespondToDetection, Invoke, emit, digit_scores]
  rw [hnew]
  exact ⟨rfl, rfl, rfl, rfl, rfl, rfl, rfl, rfl⟩

/-- Witness for C9: a single-shot inference on the set-up device. -/
theorem C9_run_inference_frame_witness :
    demo_ready.input = true ∧ demo_ready.interpreter = true ∧
    ∃ s', run_inference demo_env (fun _ => 7) demo_ready = Except.ok s' ∧
      (new_events demo_ready s').countP (fun o => o.ev.is_Invoke) = 1 ∧
      (responses (new_events demo_ready s')).length = 1 ∧
      attempts (new_events demo_ready s') = 0 ∧
      sends (new_events demo_ready s') = [] ∧
      stores (new_events demo_ready s') = [] ∧
      s'.ghost_busters = demo_ready.ghost_busters :=
  ⟨rfl, rfl,
    match C9_run_inference_frame demo_env (fun _ => 7) demo_ready rfl rfl with
    | ⟨s', h, _, h2, h3, h4, h5, h6, _, h8⟩ => ⟨s', h, h2, h3, h4, h5, h6, h8⟩⟩

/-! ## Start-up -/

/-- C6: `setup` makes its calls in the order memory precondition, radio
bring-up, peer registration, model schema version, arena allocation,
interpreter construction, tensor allocation, input binding, frame-source init
(the phases of its calls never decrease) and stops at the first failing check:
with no extended memory the size query is its only call and no global changes;
with a schema version other than the supported one no call of arena allocation
or later is made and `tensor_arena` is untouched; when the arena allocation
returns null no interpreter is built and no tensors are allocated; when tensor
allocation fails `input` is untouched and the frame source is not initialised.
When every check passes on a freshly booted device all nine phases run. -/
theorem C6_setup_order (env : Env Score) (s : State Score) :
    List.Pairwise (fun a b => a ≤ b) ((new_events s (setup env s)).map fun o => o.ev.phase) ∧
    (env.esp_psram_get_size = 0 →
      (new_events s (setup env s)).map (fun o => o.ev.phase) = [0] ∧
      (setup env s).model = s.model ∧ (setup env s).tensor_arena = s.tensor_arena ∧
      (setup env s).static_interpreter = s.static_interpreter ∧
      (setup env s).interpreter = s.interpreter ∧ (setup env s).input = s.input) ∧
    (env.model_version ≠ env.TFLITE_SCHEMA_VERSION →
      (∀ p ∈ (new_events s (setup env s)).map (fun o => o.ev.phase), p < 4) ∧
      (setup env s).tensor_arena = s.tensor_arena) ∧
    (s.tensor_arena = none → env.heap_caps_malloc = none →
      (∀ p ∈ (new_events s (setup env s)).map (fun o => o.ev.phase), p < 5) ∧
      (setup env s).tensor_arena = none ∧
      (setup env s).static_interpreter = s.static_interpreter ∧
      (setup env s).interpreter = s.interpreter) ∧
    (env.AllocateTensors ≠ TfLiteStatus.kTfLiteOk →
      (∀ p ∈ (new_events s (setup env s)).map (fun o => o.ev.phase), p < 7) ∧
      (setup env s).input = s.input) ∧
    (env.esp_psram_get_size ≠ 0 → env.model_version = env.TFLITE_SCHEMA_VERSION →
      s.tensor_arena = none → env.heap_caps_malloc ≠ none → s.static_interpreter = false →
      env.AllocateTensors = TfLiteStatus.kTfLiteOk →
      (new_events s (setup env s)).map (fun o => o.ev.phase) =
        [0, 1, 1, 1, 1, 1, 1, 1, 1, 1, 1, 2, 3, 4, 5, 5, 6, 7, 8] ∧
      (setup env s).input = true) := by
  obtain ⟨S, hS⟩ : ∃ S, S = setup env s := ⟨_, rfl⟩
  rw [← hS]
  unfold setup at hS
  simp only [ESP_ERROR_CHECK, init_wifi, init_esp_now, register_peer, if_true] at hS
  split_ifs at hS <;> subst hS <;> simp only [new_events, emit_fields, set_model_fields,
    set_tensor_arena_fields, set_static_interpreter_fields, set_interpreter_fields,
    set_input_fields, List.append_assoc, List.singleton_append, List.cons_append,
    List.nil_append, List.drop_left, List.map_cons, List.map_nil, Event.phase] at * <;>
    refine ⟨by decide, ?_, ?_, ?_, ?_, ?_⟩ <;> intros <;>
    first
    | contradiction
    | (refine ⟨by decide, ?_⟩; simp_all)
    | simp_all

/-- Witness for C6: on a freshly booted device whose checks all pass, the nine
phases run in order and the input tensor handle is bound. -/
theorem C6_setup_order_witness :
    (new_events demo_boot (setup demo_env demo_boot)).map (fun o => o.ev.phase) =
      [0, 1, 1, 1, 1, 1, 1, 1, 1, 1, 1, 2, 3, 4, 5, 5, 6, 7, 8] ∧
    (setup demo_env demo_boot).input = true :=
  (C6_setup_order demo_env demo_boot).2.2.2.2.2 (by decide) rfl rfl (by decide) rfl rfl

/-- C5, evaluated where the radio layer rejects the peer table entry:
`esp_now_add_peer` answers `ESP_FAIL`, `register_peer` still returns `ESP_OK`,
and `setup` neither aborts nor stops: it goes on to load the model and runs all
nine phases. -/
theorem C5_register_peer_hides_rejection :
    (new_events demo_boot (setup reject_env demo_boot)).filterMap
      (fun o => o.ev.add_peer_ret) = [ESP_FAIL] ∧
    (register_peer reject_env peer_mac demo_boot).1 = ESP_OK ∧
    (setup reject_env demo_boot).aborted = false ∧
    (setup reject_env demo_boot).model = some 3 ∧
    (new_events demo_boot (setup reject_env demo_boot)).map (fun o => o.ev.phase) =
      [0, 1, 1, 1, 1, 1, 1, 1, 1, 1, 1, 2, 3, 4, 5, 5, 6, 7, 8] := by
  refine ⟨by decide, rfl, rfl, rfl, by decide⟩

/-! ## The trigger flag -/

/-- C3, evaluated on a booted and set-up device: after the receive callback
the trigger flag is still false, and the next poll tick makes no call at all. -/
theorem C3_recv_cb_leaves_flag_clear :
    (recv_cb peer_mac [1] 1 (setup demo_env demo_boot)).ghost_busters = false ∧
    loop demo_env 0 (recv_cb peer_mac [1] 1 (setup demo_env demo_boot)) =
      Except.ok (recv_cb peer_mac [1] 1 (setup demo_env demo_boot)) ∧
    (new_events (recv_cb peer_mac [1] 1 (setup demo_env demo_boot))
      (tick demo_env 6 (recv_cb peer_mac [1] 1 (setup demo_env demo_boot)))).length = 0 := by
  refine ⟨rfl, rfl, by decide⟩

/-- C10: in every state reachable from boot by `setup`, terminating poll
ticks, receive callbacks, send-completion callbacks and single-shot inferences,
the trigger flag is false; hence a poll tick, with any fuel, returns the state
unchanged: no frame is acquired, no classification run, no responder called,
no send issued. -/
theorem C10_trigger_flag_never_set (env : Env Score) (out : Nat → Score) (s : State Score)
    (h : Reachable env out s) :
    s.ghost_busters = false ∧
    (∀ fuel, loop env fuel s = Except.ok s) ∧
    (∀ fuel s', loop env fuel s = Except.ok s' → new_events s s' = []) := by
  have hflag : s.ghost_busters = false := by
    induction h with
    | boot => rfl
    | setup s _ ih => rw [setup_flag]; exact ih
    | loop s s' fuel _ hl ih =>
      unfold loop at hl
      simp only [ih, Bool.false_eq_true, if_false] at hl
      cases hl
      exact ih
    | recv_cb s _ _ _ _ ih => exact ih
    | send_cb s _ status _ ih =>
      unfold send_cb
      split_ifs <;> exact ih
    | run_inference s s' ptr _ hr ih =>
      rw [run_inference_flag env ptr s s' hr]; exact ih
  have hnoop : ∀ fuel, loop env fuel s = Except.ok s := by
    intro fuel
    unfold loop
    simp only [hflag, Bool.false_eq_true, if_false]
  refine ⟨hflag, hnoop, ?_⟩
  intro fuel s' hl
  rw [hnoop fuel] at hl
  cases hl
  simp [new_events]

/-- Witness for C10: boot, start-up, a received frame, a poll tick, a
send-completion callback and a single-shot inference. -/
theorem C10_trigger_flag_never_set_witness :
    (single_shot demo_env (fun _ => 7)
      (send_cb peer_mac esp_now_send_status_t.ESP_NOW_SEND_FAIL
        (recv_cb peer_mac [1] 1 (setup demo_env demo_boot)))).ghost_busters = false :=
  (C10_trigger_flag_never_set demo_env (fun _ => 0) _
    (Reachable.run_inference
      (send_cb peer_mac esp_now_send_status_t.ESP_NOW_SEND_FAIL
        (recv_cb peer_mac [1] 1 (setup demo_env demo_boot)))
      (single_shot demo_env (fun _ => 7)
        (send_cb peer_mac esp_now_send_status_t.ESP_NOW_SEND_FAIL
          (recv_cb peer_mac [1] 1 (setup demo_env demo_boot))))
      (fun _ => 7)
      (Reachable.send_cb _ _ _
        (Reachable.loop _ _ 3
          (Reachable.recv_cb _ _ _ _ (Reachable.setup _ Reachable.boot)) rfl)) rfl)).1

end HandGesture
